import Mathlib

/-!
# AuthServices-API — verification of the schema-migration coordinator and auth data layer

Shallow embedding of the Python sources under `src/` (notably
`src/database/db.py`, `src/database/cassandra.py`, `src/database/authdb.py`,
`src/apis/users.py`).  Database side effects are modelled as explicit effect
lists or state transitions; datastore reads appear as parameters holding the
rows an invocation observed; exceptions become `Except` values.
-/

/-- Cassandra consistency levels used by the sources. -/
inductive ConsistencyLevel
  | QUORUM
  | LOCAL_QUORUM
deriving DecidableEq, Repr

/-- A row of `schema_migration_requests` (`reqid uuid, reqtime timestamp,
inprogress boolean, failed boolean, lastupdate timestamp, PRIMARY KEY (reqid)`).
The uuid is modelled as a `Nat` (its 128-bit integer value; Python compares
UUIDs by this integer, which coincides with lexicographic order on the 16-byte
big-endian representation).  Timestamps are integers (milliseconds). -/
structure MigReq where
  reqid : Nat
  reqtime : Int
  inprogress : Bool
  failed : Bool
  lastupdate : Int
deriving DecidableEq, Repr

/-- One minute, the staleness horizon used throughout `db.py`
(`datetime.timedelta(minutes=1)`), in milliseconds. -/
def oneMinuteMs : Int := 60000

/-- `staleTime = datetime.datetime.now() - datetime.timedelta(minutes=1)`. -/
def staleTime (now : Int) : Int := now - oneMinuteMs

/-- The staleness test of `DB.requestMigration` (db.py lines 224-226):
`req.failed or (not req.inprogress and req.reqtime < staleTime) or
(req.inprogress and req.lastupdate < staleTime)`. -/
def staleReq (now : Int) (req : MigReq) : Bool :=
  req.failed ||
    (!req.inprogress && decide (req.reqtime < staleTime now)) ||
    (req.inprogress && decide (req.lastupdate < staleTime now))

/-- The reap loop of `DB.requestMigration` (db.py lines 216-236): walk the raw
rows in read order; a stale row gets a best-effort `DELETE` (its reqid is
recorded as an attempted deletion; the bare `except: pass` swallows any error,
so the outcome function `deleteFails` is never consulted); a non-stale row is
appended to the live list.  Returns (attempted deletions, live rows). -/
def reapRequests (now : Int) (deleteFails : Nat → Bool) :
    List MigReq → List Nat × List MigReq
  | [] => ([], [])
  | req :: rest =>
    let tail := reapRequests now deleteFails rest
    if staleReq now req then (req.reqid :: tail.1, tail.2)
    else (tail.1, req :: tail.2)

/-- The branch taken right after reaping (db.py line 238): nominate ourselves
when the live set is empty, otherwise wait for the running migration. -/
inductive ReqMigPath
  | nominate
  | waitForCompletion
deriving DecidableEq, Repr

/-- `if len(migrationRequests) == 0: ... else: DB.waitForMigrationCompletion`. -/
def requestMigrationPath (now : Int) (deleteFails : Nat → Bool)
    (rows : List MigReq) : ReqMigPath :=
  if (reapRequests now deleteFails rows).2.isEmpty then ReqMigPath.nominate
  else ReqMigPath.waitForCompletion

/-- Python's `sorted(key=lambda x: x.reqtime)` is a stable sort: insert a row
before the first element whose `reqtime` is not smaller, so earlier-read rows
stay ahead of later-read rows with equal `reqtime`. -/
def insortReq (r : MigReq) : List MigReq → List MigReq
  | [] => [r]
  | x :: xs =>
    if x.reqtime < r.reqtime then x :: insortReq r xs else r :: x :: xs

/-- `sorted(migrationRequests, key=lambda x: x.reqtime)` (db.py lines 271-272):
stable ascending sort by `reqtime` alone. -/
def pySorted : List MigReq → List MigReq
  | [] => []
  | x :: xs => insortReq x (pySorted xs)

/-- Modelled from the spec: the ordering claimed in section 4.3.1, which breaks
`reqtime` ties by the smaller `reqid` (lexicographic on the 16-byte
representation, i.e. the 128-bit integer order).  The code does not implement
this tie-break; this definition exists only to be compared with `pySorted`. -/
def specTieLt (a b : MigReq) : Bool :=
  decide (a.reqtime < b.reqtime) ||
    (a.reqtime == b.reqtime && a.reqid < b.reqid)

/-- Modelled from the spec: insertion step for `specSorted`. -/
def insortSpec (r : MigReq) : List MigReq → List MigReq
  | [] => [r]
  | x :: xs =>
    if specTieLt x r then x :: insortSpec r xs else r :: x :: xs

/-- Modelled from the spec: sort ascending by `(reqtime, reqid)`. -/
def specSorted : List MigReq → List MigReq
  | [] => []
  | x :: xs => insortSpec x (specSorted xs)

/-- Outcome of the post-settle check (db.py line 274): either we are the first
row of the sorted re-read and execute the migration, or we delete our own row
and wait. -/
inductive ElectionOutcome
  | executeMigration
  | deleteOwnAndWait
deriving DecidableEq, Repr

/-- `migrationRequests[0].reqid == reqid` on the sorted re-read; `none` models
the `IndexError` Python would raise if the re-read returned no rows. -/
def electionDecision (rows : List MigReq) (ours : Nat) : Option ElectionOutcome :=
  (pySorted rows).head?.map fun w =>
    if w.reqid == ours then ElectionOutcome.executeMigration
    else ElectionOutcome.deleteOwnAndWait

/-- `UPDATE schema_migration_requests SET inprogress = true, lastupdate = ? WHERE reqid = ?`. -/
def applyMarkInProgress (t : Int) (rid : Nat) (table : List MigReq) : List MigReq :=
  table.map fun r =>
    if r.reqid == rid then { r with inprogress := true, lastupdate := t } else r

/-- `UPDATE schema_migration_requests SET lastupdate = ?, failed = true, inprogress = false WHERE reqid = ?`. -/
def applyReqFailed (t : Int) (rid : Nat) (table : List MigReq) : List MigReq :=
  table.map fun r =>
    if r.reqid == rid then
      { r with failed := true, inprogress := false, lastupdate := t }
    else r

/-- `DELETE FROM schema_migration_requests WHERE reqid = ?`. -/
def applyDeleteReq (rid : Nat) (table : List MigReq) : List MigReq :=
  table.filter fun r => !(r.reqid == rid)

/-- The winner path of `DB.requestMigration` (db.py lines 276-313) as a
transition on the `schema_migration_requests` table: mark our row in progress,
run the migration (its outcome is the parameter `migResult`), then on success
delete our row, and on any raised error update our row to
`failed=true, inprogress=false, lastupdate=now` and re-raise. -/
def winnerPath (rid : Nat) (tStart tFail : Int)
    (migResult : Except String Unit) (table : List MigReq) :
    List MigReq × Except String Unit :=
  let table1 := applyMarkInProgress tStart rid table
  match migResult with
  | Except.ok _ => (applyDeleteReq rid table1, Except.ok ())
  | Except.error e => (applyReqFailed tFail rid table1, Except.error e)

/-- Operations the waiter issues against the datastore; the loop body of
`DB.waitForMigrationCompletion` only ever executes the prepared
`SELECT * FROM schema_migration_requests`. -/
inductive WaiterOp
  | readRequests
  | deleteRequest (rid : Nat)
  | writeRequest (rid : Nat)
deriving DecidableEq, Repr

/-- How `DB.waitForMigrationCompletion` (db.py lines 447-491) leaves its loop:
the table was observed empty (return to the caller), or a failed/stalled row
was observed and `DB.requestMigration` is re-entered. -/
inductive WaitOutcome
  | migrationComplete
  | reRequestMigration
deriving DecidableEq, Repr

/-- `req.failed or (req.inprogress and req.lastupdate < staleTime)`
(db.py lines 479-480) over one polled row set. -/
def waitObservesRepair (now : Int) (rows : List MigReq) : Bool :=
  rows.any fun r =>
    r.failed || (r.inprogress && decide (r.lastupdate < staleTime now))

/-- One iteration of the waiter loop, given the rows the poll returned and the
wall-clock `now` at that poll: `some` terminates the loop, `none` keeps waiting. -/
def waitPoll (poll : List MigReq × Int) : Option WaitOutcome :=
  if poll.1.isEmpty then some WaitOutcome.migrationComplete
  else if waitObservesRepair poll.2 poll.1 then some WaitOutcome.reRequestMigration
  else none

/-- `time.sleep(0.5)` between polls (db.py line 467), in milliseconds. -/
def pollIntervalMs : Nat := 500

/-- The waiter loop over a (finite) trace of successive polls, each taken
`pollIntervalMs` after the previous one; `none` means every poll in the trace
kept the loop waiting. -/
def waitForMigrationCompletion : List (List MigReq × Int) → Option WaitOutcome
  | [] => none
  | p :: rest =>
    match waitPoll p with
    | some o => some o
    | none => waitForMigrationCompletion rest

/-- The datastore operations the waiter performs over a trace of polls: one
read per executed iteration and nothing else. -/
def waiterOps : List (List MigReq × Int) → List WaiterOp
  | [] => []
  | p :: rest =>
    WaiterOp.readRequests ::
      (match waitPoll p with
       | some _ => []
       | none => waiterOps rest)

/-- A row of `schema_migrations` for one script
(`scriptname text, time timestamp, run boolean, failed boolean, error text,
content text, PRIMARY KEY (scriptname, time)`); the rows returned by
`SELECT * FROM schema_migrations WHERE scriptname = ?` arrive in ascending
clustering order on `time`. -/
structure MigRow where
  time : Int
  run : Bool
  failed : Bool
  error : String
  content : String
deriving DecidableEq, Repr

/-- Statements `DB.migrateSchema` issues for one script. -/
inductive MigEffect
  | insertProvisional (scriptname : String) (time : Int) (content : String)
  | execCql (content : String) (c : ConsistencyLevel)
  | updateSuccess (scriptname : String) (time : Int)
  | updateFailure (error scriptname : String) (time : Int)
deriving DecidableEq, Repr

/-- The run condition of `DB.migrateSchema` (db.py lines 127-129):
`len(history) == 0 or history[-1].failed or not history[-1].run`
(short-circuit protects the `[-1]` access). -/
def notYetApplied (history : List MigRow) : Bool :=
  match history.getLast? with
  | none => true
  | some lastRow => lastRow.failed || !lastRow.run

/-- `DB.migrateSchema` (db.py lines 103-187) for one script file, given its
history rows (ascending by `time`), the `datetime.now()` used as the
provisional row's `time`, and the outcome of executing the file's CQL:
if the latest history row is applied, do nothing and succeed; otherwise insert
the provisional row at QUORUM, execute the CQL at QUORUM, and record success or
failure, re-raising the error in the failure case. -/
def migrateSchema (filename content : String) (exectime : Int)
    (history : List MigRow) (runScript : Except String Unit) :
    List MigEffect × Except String Unit :=
  if notYetApplied history then
    match runScript with
    | Except.ok _ =>
      ([MigEffect.insertProvisional filename exectime content,
        MigEffect.execCql content ConsistencyLevel.QUORUM,
        MigEffect.updateSuccess filename exectime], Except.ok ())
    | Except.error e =>
      ([MigEffect.insertProvisional filename exectime content,
        MigEffect.execCql content ConsistencyLevel.QUORUM,
        MigEffect.updateFailure e filename exectime], Except.error e)
  else ([], Except.ok ())

/-- `tablename = path[path.rfind('/')+1:-4]` (db.py lines 57-58): the basename
with its 4-character `.cql` extension removed. -/
def tableNameOf (path : String) : String :=
  ((path.splitOn "/").getLastD "").dropRight 4

/-- DDL statements `DB.baseline` issues for one file. -/
inductive BaselineEffect
  | execCql (query : String) (c : ConsistencyLevel)
deriving DecidableEq, Repr

/-- `DB.baseline` (db.py lines 49-74) for one file: derive the table name from
the path; skip entirely when the table exists; otherwise execute the file's CQL
at QUORUM, and when that raises, swallow the error iff a fresh existence check
now finds the table (`existsAfter`), else re-raise.  `existsBefore` and
`existsAfter` are the two `DB.tableExists` observations, as functions of the
table name. -/
def baselineFile (path query : String) (existsBefore : String → Bool)
    (runScript : Except String Unit) (existsAfter : String → Bool) :
    List BaselineEffect × Except String Unit :=
  let tablename := tableNameOf path
  if !existsBefore tablename then
    match runScript with
    | Except.ok _ =>
      ([BaselineEffect.execCql query ConsistencyLevel.QUORUM], Except.ok ())
    | Except.error e =>
      if existsAfter tablename then
        ([BaselineEffect.execCql query ConsistencyLevel.QUORUM], Except.ok ())
      else
        ([BaselineEffect.execCql query ConsistencyLevel.QUORUM], Except.error e)
  else ([], Except.ok ())

/-- Writes issued by the auth data layer (`src/database/authdb.py`), each
tagged with the consistency level the prepared statement was executed at. -/
inductive AuthEffect
  | setGlobalSetting (setting value : String) (c : ConsistencyLevel)
  | createOrg (org : String) (c : ConsistencyLevel)
  | setOrgSetting (org setting value : String) (c : ConsistencyLevel)
  | createUser (org username email : String) (parentuser : Option String)
      (c : ConsistencyLevel)
  | setPassword (org username hash salt : String) (c : ConsistencyLevel)
  | deletePasswordReset (org username : String) (c : ConsistencyLevel)
deriving DecidableEq, Repr

/-- Where the `try` block of `CompletePasswordReset.post` (users.py lines
156-161) can fail: `passwordutils.generateSalt()`, `passwordutils.hashPassword`,
or the `AuthDB.setPassword` write itself; `ok` carries the salt and hash that
were stored. -/
inductive TryOutcome
  | ok (salt hash : String)
  | saltError (e : String)
  | hashError (salt e : String)
  | writeError (salt hash e : String)
deriving DecidableEq, Repr

/-- `CompletePasswordReset.post` (users.py lines 143-178) after request parsing:
given whether the user exists, whether the resetid validated, and the outcome
of the salt/hash/set-password `try` block, it yields the auth-layer writes
issued (in order) and the HTTP status code.  `AuthDB.setPassword` is called
with no consistency argument, so its `LOCAL_QUORUM` default applies;
`AuthDB.deletePasswordReset` sits in the `finally` block and likewise uses its
`LOCAL_QUORUM` default. -/
def completePasswordReset (org username : String) (userEx resetValid : Bool)
    (t : TryOutcome) : List AuthEffect × Nat :=
  if userEx then
    if resetValid then
      match t with
      | TryOutcome.ok salt hash =>
        ([AuthEffect.setPassword org username hash salt
            ConsistencyLevel.LOCAL_QUORUM,
          AuthEffect.deletePasswordReset org username
            ConsistencyLevel.LOCAL_QUORUM], 200)
      | TryOutcome.saltError _ =>
        ([AuthEffect.deletePasswordReset org username
            ConsistencyLevel.LOCAL_QUORUM], 500)
      | TryOutcome.hashError _ _ =>
        ([AuthEffect.deletePasswordReset org username
            ConsistencyLevel.LOCAL_QUORUM], 500)
      | TryOutcome.writeError salt hash _ =>
        ([AuthEffect.setPassword org username hash salt
            ConsistencyLevel.LOCAL_QUORUM,
          AuthEffect.deletePasswordReset org username
            ConsistencyLevel.LOCAL_QUORUM], 500)
    else ([], 400)
  else ([], 400)

/-- What `AuthDB.createDefaultOrg` observes in the datastore: the
`globalsettings['defaultorg']` row, org existence, the org's `admins` setting
and admin-user existence (the code's re-reads after its own QUORUM writes are
modelled as returning the just-written values). -/
structure OrgDbView where
  defaultorgSetting : Option String
  orgExists : String → Bool
  orgAdmins : String → Option String
  userExists : String → String → Bool

/-- `AuthDB.createDefaultOrg` (authdb.py lines 22-84) as the list of writes it
issues: `setGlobalSetting('defaultorg', …)` passes
`consistency=ConsistencyLevel.QUORUM`; `AuthDB.createOrg(value, None)` passes
no consistency, so `createOrg`'s `LOCAL_QUORUM` default applies (and the code
binds only `org` to the two-placeholder insert, dropping `parentorg`);
`AuthDB.setOrgSetting` likewise uses its `LOCAL_QUORUM` default; the default
admin `createUser` passes `consistency=ConsistencyLevel.QUORUM`. -/
def createDefaultOrg (orgName adminUser adminEmail : String)
    (db : OrgDbView) : List AuthEffect :=
  let resolved :=
    match db.defaultorgSetting with
    | none => ([AuthEffect.setGlobalSetting "defaultorg" orgName
                  ConsistencyLevel.QUORUM], orgName)
    | some v => ([], v)
  let defaultOrgVal := resolved.2
  let effs2 :=
    if db.orgExists defaultOrgVal then []
    else [AuthEffect.createOrg defaultOrgVal ConsistencyLevel.LOCAL_QUORUM]
  let effs3 :=
    match db.orgAdmins defaultOrgVal with
    | some _ => []
    | none =>
      AuthEffect.setOrgSetting defaultOrgVal "admins"
          (adminUser ++ "@" ++ defaultOrgVal) ConsistencyLevel.LOCAL_QUORUM ::
        (if db.userExists defaultOrgVal adminUser then []
         else [AuthEffect.createUser defaultOrgVal adminUser adminEmail none
                 ConsistencyLevel.QUORUM])
  resolved.1 ++ effs2 ++ effs3

/-- A row of `userpasswordresets` as selected for one `(org, username)`;
`resetid` is the stored uuid, modelled by its integer value. -/
structure ResetRecord where
  requestdate : Int
  resetid : Nat
deriving DecidableEq, Repr

/-- `datetime.timedelta(days=7)` in milliseconds. -/
def sevenDaysMs : Int := 7 * 24 * 60 * 60 * 1000

/-- `AuthDB.validatePasswordReset` (authdb.py lines 434-454): true iff the
select returned a row whose `requestdate + 7 days` is strictly after `now` and
whose `str(resetid)` equals the given string (short-circuit `and` guards the
`[0]` access). -/
def validatePasswordReset (rows : List ResetRecord) (resetid : String)
    (now : Int) : Bool :=
  match rows with
  | r :: _ =>
    decide (r.requestdate + sevenDaysMs > now) && (toString r.resetid == resetid)
  | [] => false

/-- A dynamically-typed Python value, as far as the `users.py` registration
check needs: the `orgsettings.value` column is text, the literal `0` is an int. -/
inductive PyVal
  | int (n : Int)
  | str (s : String)
deriving DecidableEq, Repr

/-- Python `==` across these types: an `int` never equals a `str`
(no coercion), same-type values compare by value. -/
def pyEq : PyVal → PyVal → Bool
  | PyVal.int a, PyVal.int b => a == b
  | PyVal.str a, PyVal.str b => a == b
  | _, _ => false

/-- `len(regOpen) == 0 or regOpen[0].value == 0` (users.py line 45): the
condition under which `Users.post` returns the 400 closed-registration
response.  `regOpenRows` holds the values of the
`getOrgSetting(org, 'registrationOpen')` rows. -/
def registrationClosedCheck (regOpenRows : List PyVal) : Bool :=
  match regOpenRows with
  | [] => true
  | v :: _ => pyEq v (PyVal.int 0)

/-- Control flow of `Users.post` (users.py lines 42-49) up to the registration
gate for a new user. -/
inductive UsersPostStep
  | userAlreadyExists400
  | closedRegistration400
  | parentUserChecks
deriving DecidableEq, Repr

/-- The first two branches of `Users.post`: an existing user is refused, then
the registration gate either refuses with the closed-registration 400 or falls
through to the parent-user checks. -/
def usersPostGate (userEx : Bool) (regOpenRows : List PyVal) : UsersPostStep :=
  if !userEx then
    if registrationClosedCheck regOpenRows then UsersPostStep.closedRegistration400
    else UsersPostStep.parentUserChecks
  else UsersPostStep.userAlreadyExists400

/-- The consistency level an auth-layer write was executed at. -/
def authEffectConsistency : AuthEffect → ConsistencyLevel
  | AuthEffect.setGlobalSetting _ _ c => c
  | AuthEffect.createOrg _ c => c
  | AuthEffect.setOrgSetting _ _ _ c => c
  | AuthEffect.createUser _ _ _ _ c => c
  | AuthEffect.setPassword _ _ _ _ c => c
  | AuthEffect.deletePasswordReset _ _ c => c

/-- A concrete request row: the larger reqid, read first. -/
def cexA : MigReq := { reqid := 5, reqtime := 10, inprogress := false, failed := false, lastupdate := 10 }

/-- A concrete request row: the smaller reqid, read second, same `reqtime`. -/
def cexB : MigReq := { reqid := 3, reqtime := 10, inprogress := false, failed := false, lastupdate := 10 }

/-- A datastore view in which nothing has been bootstrapped yet. -/
def dbEmptyView : OrgDbView :=
  { defaultorgSetting := none
  , orgExists := fun _ => false
  , orgAdmins := fun _ => none
  , userExists := fun _ _ => false }

theorem insortReq_perm (r : MigReq) :
    ∀ l : List MigReq, (insortReq r l).Perm (r :: l)
  | [] => List.Perm.refl _
  | x :: xs => by
    unfold insortReq
    by_cases h : x.reqtime < r.reqtime
    · simp only [if_pos h]
      exact ((insortReq_perm r xs).cons x).trans (List.Perm.swap r x xs)
    · simp only [if_neg h]
      exact List.Perm.refl _

theorem mem_insortReq {y r : MigReq} {l : List MigReq} :
    y ∈ insortReq r l ↔ y = r ∨ y ∈ l := by
  rw [(insortReq_perm r l).mem_iff, List.mem_cons]

theorem insortReq_pairwise (r : MigReq) :
    ∀ {l : List MigReq},
      List.Pairwise (fun a b : MigReq => a.reqtime ≤ b.reqtime) l →
      List.Pairwise (fun a b : MigReq => a.reqtime ≤ b.reqtime) (insortReq r l)
  | [], _ => List.pairwise_singleton _ r
  | x :: xs, h => by
    rcases List.pairwise_cons.mp h with ⟨hx, hxs⟩
    unfold insortReq
    by_cases hlt : x.reqtime < r.reqtime
    · simp only [if_pos hlt]
      refine List.pairwise_cons.mpr ⟨?_, insortReq_pairwise r hxs⟩
      intro y hy
      rcases mem_insortReq.mp hy with rfl | hy
      · exact le_of_lt hlt
      · exact hx y hy
    · simp only [if_neg hlt]
      refine List.pairwise_cons.mpr ⟨?_, h⟩
      intro y hy
      rcases List.mem_cons.mp hy with rfl | hy
      · exact le_of_not_lt hlt
      · exact le_trans (le_of_not_lt hlt) (hx y hy)

theorem insortReq_filter_self (r : MigReq) :
    ∀ l : List MigReq,
      (insortReq r l).filter (fun y => y.reqtime == r.reqtime) =
        r :: l.filter (fun y => y.reqtime == r.reqtime)
  | [] => by simp [insortReq]
  | x :: xs => by
    unfold insortReq
    by_cases hlt : x.reqtime < r.reqtime
    · have hne : (x.reqtime == r.reqtime) = false := by
        simp only [beq_eq_false_iff_ne, ne_eq]
        exact ne_of_lt hlt
      rw [if_pos hlt, List.filter_cons, List.filter_cons, hne,
        insortReq_filter_self r xs]
      simp
    · simp [if_neg hlt, List.filter_cons]

theorem insortReq_filter_other (r : MigReq) (t : Int) (hne : r.reqtime ≠ t) :
    ∀ l : List MigReq,
      (insortReq r l).filter (fun y => y.reqtime == t) =
        l.filter (fun y => y.reqtime == t)
  | [] => by simp [insortReq, hne]
  | x :: xs => by
    unfold insortReq
    by_cases hlt : x.reqtime < r.reqtime
    · simp only [if_pos hlt, List.filter_cons,
        insortReq_filter_other r t hne xs]
    · simp [if_neg hlt, List.filter_cons, hne]

theorem pySorted_perm : ∀ l : List MigReq, (pySorted l).Perm l
  | [] => List.Perm.refl _
  | x :: xs => (insortReq_perm x (pySorted xs)).trans ((pySorted_perm xs).cons x)

theorem pySorted_pairwise : ∀ l : List MigReq,
    List.Pairwise (fun a b : MigReq => a.reqtime ≤ b.reqtime) (pySorted l)
  | [] => List.Pairwise.nil
  | x :: xs => insortReq_pairwise x (pySorted_pairwise xs)

theorem pySorted_filter_time (t : Int) : ∀ l : List MigReq,
    (pySorted l).filter (fun y => y.reqtime == t) =
      l.filter (fun y => y.reqtime == t)
  | [] => rfl
  | x :: xs => by
    show (insortReq x (pySorted xs)).filter _ = _
    by_cases hx : x.reqtime = t
    · subst hx
      rw [insortReq_filter_self, pySorted_filter_time x.reqtime xs]
      simp [List.filter_cons]
    · rw [insortReq_filter_other x t hx, pySorted_filter_time t xs]
      simp [List.filter_cons, hx]

/-- C1 (counterexample): two nodes observe the same set of request rows — the
two-element set containing `cexA` (reqid 5) and `cexB` (reqid 3), which share
`reqtime` — yet `sorted(key=lambda x: x.reqtime)` breaks the tie by read order,
not by the smaller reqid: the order the code computes differs from the claimed
`(reqtime, reqid)` order, the first row of the code's order is the larger
reqid, and the two read orders elect different winners, so the claimed
determinism over equal row sets fails. -/
theorem requestMigration_tiebreak_counterexample :
    cexB.reqid < cexA.reqid ∧ cexA.reqtime = cexB.reqtime ∧
    pySorted [cexA, cexB] ≠ specSorted [cexA, cexB] ∧
    (pySorted [cexA, cexB]).head? = some cexA ∧
    List.Perm [cexA, cexB] [cexB, cexA] ∧
    electionDecision [cexA, cexB] cexA.reqid =
      some ElectionOutcome.executeMigration ∧
    electionDecision [cexB, cexA] cexA.reqid =
      some ElectionOutcome.deleteOwnAndWait := by
  refine ⟨by decide, by decide, by decide, by decide,
    List.Perm.swap cexB cexA [], by decide, by decide⟩

/-- C1 (amended): after the settle sleep the re-read rows are sorted ascending
by `reqtime` only, with ties between equal `reqtime` values left in the order
the rows were read (Python's sort is stable: the rows of each `reqtime` appear
in the output exactly as in the input), and the invocation proceeds to execute
the migration iff the first row of that order carries its own reqid; the
winner is thus a function of the observed row *sequence*, so only nodes that
observe the same sequence (not merely the same set) compute the same winner. -/
theorem requestMigration_settle_order (rows : List MigReq) (ours : Nat) :
    (pySorted rows).Perm rows ∧
    List.Pairwise (fun a b : MigReq => a.reqtime ≤ b.reqtime) (pySorted rows) ∧
    (∀ t : Int, (pySorted rows).filter (fun y => y.reqtime == t) =
      rows.filter (fun y => y.reqtime == t)) ∧
    (electionDecision rows ours = some ElectionOutcome.executeMigration ↔
      ∃ w, (pySorted rows).head? = some w ∧ w.reqid = ours) := by
  refine ⟨pySorted_perm rows, pySorted_pairwise rows,
    fun t => pySorted_filter_time t rows, ?_⟩
  unfold electionDecision
  cases h : (pySorted rows).head? with
  | none => simp
  | some w =>
    by_cases hq : w.reqid = ours <;> simp [hq]

theorem reapRequests_deleted (now : Int) (f : Nat → Bool) :
    ∀ rows : List MigReq,
      (reapRequests now f rows).1 = (rows.filter (staleReq now)).map MigReq.reqid
  | [] => rfl
  | r :: rest => by
    cases h : staleReq now r <;>
      simp [reapRequests, h, List.filter_cons, reapRequests_deleted now f rest]

theorem reapRequests_live (now : Int) (f : Nat → Bool) :
    ∀ rows : List MigReq,
      (reapRequests now f rows).2 = rows.filter (fun r => !staleReq now r)
  | [] => rfl
  | r :: rest => by
    cases h : staleReq now r <;>
      simp [reapRequests, h, List.filter_cons, reapRequests_live now f rest]

theorem reapRequests_ignores_delete_outcome (now : Int) (f g : Nat → Bool) :
    ∀ rows : List MigReq, reapRequests now f rows = reapRequests now g rows
  | [] => rfl
  | r :: rest => by
    cases h : staleReq now r <;>
      simp [reapRequests, h, reapRequests_ignores_delete_outcome now f g rest]

/-- C3: at the start of `requestMigration`, a read row is stale iff
`failed = true`, or `inprogress = false` with `reqtime` older than a minute
before now, or `inprogress = true` with `lastupdate` older than a minute
before now; every stale row (and only stale rows) gets a deletion attempt
whose outcome is swallowed — the reap result does not depend on which deletes
fail — and exactly the non-stale rows form the live set, whose emptiness
decides between nominating ourselves and waiting. -/
theorem requestMigration_reap_spec (now : Int) (deleteFails : Nat → Bool)
    (rows : List MigReq) :
    (∀ r : MigReq, staleReq now r = true ↔
      (r.failed = true ∨
        (r.inprogress = false ∧ r.reqtime < staleTime now) ∨
        (r.inprogress = true ∧ r.lastupdate < staleTime now))) ∧
    (reapRequests now deleteFails rows).1 =
      (rows.filter (staleReq now)).map MigReq.reqid ∧
    (reapRequests now deleteFails rows).2 =
      rows.filter (fun r => !staleReq now r) ∧
    (∀ g : Nat → Bool,
      reapRequests now deleteFails rows = reapRequests now g rows) ∧
    (requestMigrationPath now deleteFails rows = ReqMigPath.nominate ↔
      rows.filter (fun r => !staleReq now r) = []) := by
  refine ⟨?_, reapRequests_deleted now deleteFails rows,
    reapRequests_live now deleteFails rows,
    fun g => reapRequests_ignores_delete_outcome now deleteFails g rows, ?_⟩
  · intro r
    cases hf : r.failed <;> cases hp : r.inprogress <;>
      simp [staleReq, hf, hp]
  · unfold requestMigrationPath
    rw [reapRequests_live now deleteFails rows]
    cases h : rows.filter (fun r => !staleReq now r) <;> simp [h]

/-- C2: for a migration script, `migrateSchema` is applied iff the latest
history row by `time` (the last row of the ascending clustering order) has
`run=true` and `failed=false`; it executes the script's CQL iff the script is
not applied; and when the script is applied it issues no insert, no update and
no CQL execution, returning success. -/
theorem migrateSchema_spec (filename content : String) (exectime : Int)
    (history : List MigRow) (runScript : Except String Unit) :
    (notYetApplied history = false ↔
      ∃ lastRow, history.getLast? = some lastRow ∧
        lastRow.run = true ∧ lastRow.failed = false) ∧
    ((∃ q c, MigEffect.execCql q c ∈
        (migrateSchema filename content exectime history runScript).1) ↔
      notYetApplied history = true) ∧
    (notYetApplied history = false →
      migrateSchema filename content exectime history runScript =
        ([], Except.ok ())) := by
  refine ⟨?_, ?_, ?_⟩
  · cases h : history.getLast? with
    | none => simp [notYetApplied, h]
    | some lastRow =>
      simp only [notYetApplied, h, Bool.or_eq_false_iff, Bool.not_eq_true',
        Bool.not_eq_false', Option.some_inj]
      constructor
      · rintro ⟨h1, h2⟩
        exact ⟨lastRow, rfl, h2, h1⟩
      · rintro ⟨l, rfl, h2, h1⟩
        exact ⟨h1, h2⟩
  · cases hna : notYetApplied history <;> cases runScript <;>
      simp [migrateSchema, hna]
  · intro h
    simp [migrateSchema, h]

/-- C2 (witness): over a history whose latest row is applied, `migrateSchema`
issues nothing and succeeds. -/
theorem migrateSchema_spec_witness :
    migrateSchema "001_users.cql" "CREATE TABLE users" 7
      [{ time := 3, run := true, failed := false, error := "", content := "CREATE TABLE users" }]
      (Except.ok ()) = ([], Except.ok ()) :=
  (migrateSchema_spec "001_users.cql" "CREATE TABLE users" 7
    [{ time := 3, run := true, failed := false, error := "", content := "CREATE TABLE users" }]
    (Except.ok ())).2.2 (by decide)

/-- C4: on the winner path, a successful `doMigration` leads to the winner's
own request row being deleted (no row with our reqid survives) with the
invocation succeeding, while a raised error leads to our row carrying
`failed=true, inprogress=false, lastupdate=now` and the same error being
re-raised to the caller. -/
theorem winnerPath_spec (rid : Nat) (tStart tFail : Int)
    (migResult : Except String Unit) (table : List MigReq) :
    (migResult = Except.ok () →
      (winnerPath rid tStart tFail migResult table).2 = Except.ok () ∧
      ∀ r ∈ (winnerPath rid tStart tFail migResult table).1, r.reqid ≠ rid) ∧
    (∀ e : String, migResult = Except.error e →
      (winnerPath rid tStart tFail migResult table).2 = Except.error e ∧
      ∀ r ∈ (winnerPath rid tStart tFail migResult table).1, r.reqid = rid →
        r.failed = true ∧ r.inprogress = false ∧ r.lastupdate = tFail) := by
  constructor
  · rintro rfl
    refine ⟨rfl, ?_⟩
    intro r hr
    have := (List.mem_filter.mp hr).2
    simpa using this
  · rintro e rfl
    refine ⟨rfl, ?_⟩
    intro r hr hrid
    rcases List.mem_map.mp hr with ⟨x, _, rfl⟩
    by_cases hx : x.reqid == rid
    · simp only [applyMarkInProgress, hx, if_pos] at hrid ⊢
      simp [hx]
    · rw [if_neg hx] at hrid
      exact absurd hrid (by simpa using hx)

/-- C4 (witness): with our row present, success deletes it and an error marks
it failed and re-raises. -/
theorem winnerPath_spec_witness :
    (winnerPath 1 5 9 (Except.ok ())
      [{ reqid := 1, reqtime := 0, inprogress := false, failed := false, lastupdate := 0 }]).2 =
      Except.ok () ∧
    (winnerPath 1 5 9 (Except.error "boom")
      [{ reqid := 1, reqtime := 0, inprogress := false, failed := false, lastupdate := 0 }]).2 =
      Except.error "boom" :=
  ⟨((winnerPath_spec 1 5 9 (Except.ok ())
      [{ reqid := 1, reqtime := 0, inprogress := false, failed := false, lastupdate := 0 }]).1 rfl).1,
   ((winnerPath_spec 1 5 9 (Except.error "boom")
      [{ reqid := 1, reqtime := 0, inprogress := false, failed := false, lastupdate := 0 }]).2 "boom" rfl).1⟩

theorem waitObservesRepair_iff (now : Int) (rows : List MigReq) :
    waitObservesRepair now rows = true ↔
      ∃ r ∈ rows, r.failed = true ∨
        (r.inprogress = true ∧ r.lastupdate < staleTime now) := by
  simp [waitObservesRepair, List.any_eq_true]

/-- C5: the waiter loop (one poll every `pollIntervalMs` = 500 ms) terminates
exactly at the first poll whose outcome is decisive; a poll is decisive with
success iff it observed zero rows, and decisive with re-entering
`requestMigration` iff it observed a nonempty row set containing a row with
`failed=true` or with `inprogress=true` and `lastupdate` older than a minute
before that poll's now; and across all its iterations the waiter only ever
reads the requests table — it issues no delete and no write. -/
theorem waitForMigrationCompletion_spec (polls : List (List MigReq × Int)) :
    pollIntervalMs = 500 ∧
    waitForMigrationCompletion polls = (polls.filterMap waitPoll).head? ∧
    (∀ (rows : List MigReq) (now : Int),
      waitPoll (rows, now) = some WaitOutcome.migrationComplete ↔ rows = []) ∧
    (∀ (rows : List MigReq) (now : Int),
      waitPoll (rows, now) = some WaitOutcome.reRequestMigration ↔
        rows ≠ [] ∧ ∃ r ∈ rows, r.failed = true ∨
          (r.inprogress = true ∧ r.lastupdate < staleTime now)) ∧
    (waiterOps polls).all (fun op => op == WaiterOp.readRequests) = true := by
  refine ⟨rfl, ?_, ?_, ?_, ?_⟩
  · induction polls with
    | nil => rfl
    | cons p rest ih =>
      cases h : waitPoll p <;>
        simp [waitForMigrationCompletion, List.filterMap_cons, h, ih]
  · intro rows now
    cases rows with
    | nil => simp [waitPoll]
    | cons r rs =>
      cases hrep : waitObservesRepair now (r :: rs) <;>
        simp [waitPoll, hrep]
  · intro rows now
    cases rows with
    | nil => simp [waitPoll]
    | cons r rs =>
      have hwp : waitPoll (r :: rs, now) =
          if waitObservesRepair now (r :: rs) = true then
            some WaitOutcome.reRequestMigration
          else none := by
        simp [waitPoll]
      rw [hwp]
      by_cases hrep : waitObservesRepair now (r :: rs) = true
      · rw [if_pos hrep]
        rw [waitObservesRepair_iff] at hrep
        exact iff_of_true rfl ⟨List.cons_ne_nil r rs, hrep⟩
      · rw [if_neg hrep]
        rw [waitObservesRepair_iff] at hrep
        refine iff_of_false (by simp) ?_
        rintro ⟨_, hex⟩
        exact hrep hex
  · induction polls with
    | nil => rfl
    | cons p rest ih =>
      cases h : waitPoll p <;> simp [waiterOps, h, ih]

/-- C6: a baseline file whose table (the filename stem) already exists triggers
no DDL and succeeds; otherwise the file's CQL is executed at QUORUM, and an
error from that execution is suppressed exactly when the follow-up existence
check finds the table, being re-raised otherwise. -/
theorem baselineFile_spec (path query : String) (existsBefore : String → Bool)
    (runScript : Except String Unit) (existsAfter : String → Bool) :
    (existsBefore (tableNameOf path) = true →
      baselineFile path query existsBefore runScript existsAfter =
        ([], Except.ok ())) ∧
    (existsBefore (tableNameOf path) = false →
      (baselineFile path query existsBefore runScript existsAfter).1 =
        [BaselineEffect.execCql query ConsistencyLevel.QUORUM] ∧
      ((baselineFile path query existsBefore runScript existsAfter).2 =
          Except.ok () ↔
        runScript = Except.ok () ∨ existsAfter (tableNameOf path) = true) ∧
      (∀ e : String, runScript = Except.error e →
        existsAfter (tableNameOf path) = false →
        (baselineFile path query existsBefore runScript existsAfter).2 =
          Except.error e)) := by
  constructor
  · intro h
    simp [baselineFile, h]
  · intro h
    refine ⟨?_, ?_, ?_⟩
    · cases runScript with
      | ok u => simp [baselineFile, h]
      | error e =>
        cases ha : existsAfter (tableNameOf path) <;>
          simp [baselineFile, h, ha]
    · cases runScript with
      | ok u => simp [baselineFile, h]
      | error e =>
        cases ha : existsAfter (tableNameOf path) <;>
          simp [baselineFile, h, ha]
    · rintro e rfl ha
      simp [baselineFile, h, ha]

/-- C6 (witness): the stem of `users.cql` is `users`; with the table present
nothing is executed, and with it absent and a failed create that the re-check
does not excuse, the error propagates. -/
theorem baselineFile_spec_witness :
    baselineFile "schema/authdb/baseline/users.cql" "CREATE TABLE users"
      (fun _ => true) (Except.ok ()) (fun _ => false) = ([], Except.ok ()) ∧
    (baselineFile "schema/authdb/baseline/users.cql" "CREATE TABLE users"
      (fun _ => false) (Except.error "timeout") (fun _ => false)).2 =
      Except.error "timeout" :=
  ⟨(baselineFile_spec "schema/authdb/baseline/users.cql" "CREATE TABLE users"
      (fun _ => true) (Except.ok ()) (fun _ => false)).1 rfl,
   ((baselineFile_spec "schema/authdb/baseline/users.cql" "CREATE TABLE users"
      (fun _ => false) (Except.error "timeout") (fun _ => false)).2 rfl).2.2
     "timeout" rfl rfl⟩

/-- C7 (counterexample): on the password and org-creation paths, the claimed
QUORUM writes are in fact executed at the LOCAL_QUORUM defaults — the
`CompletePasswordReset` invocation of `setPassword` and the `createDefaultOrg`
invocation of `createOrg` pass no consistency argument, so both writes carry
`LOCAL_QUORUM`, which differs from `QUORUM`. -/
theorem quorum_paths_counterexample :
    (completePasswordReset "example" "alice" true true
      (TryOutcome.ok "salt" "hash")).1 =
      [AuthEffect.setPassword "example" "alice" "hash" "salt"
        ConsistencyLevel.LOCAL_QUORUM,
       AuthEffect.deletePasswordReset "example" "alice"
        ConsistencyLevel.LOCAL_QUORUM] ∧
    createDefaultOrg "example" "admin" "admin@example.net" dbEmptyView =
      [AuthEffect.setGlobalSetting "defaultorg" "example"
        ConsistencyLevel.QUORUM,
       AuthEffect.createOrg "example" ConsistencyLevel.LOCAL_QUORUM,
       AuthEffect.setOrgSetting "example" "admins" "admin@example"
        ConsistencyLevel.LOCAL_QUORUM,
       AuthEffect.createUser "example" "admin" "admin@example.net" none
        ConsistencyLevel.QUORUM] ∧
    ConsistencyLevel.LOCAL_QUORUM ≠ ConsistencyLevel.QUORUM :=
  ⟨rfl, rfl, by decide⟩

/-- C7 (amended): every write issued by `CompletePasswordReset` — in
particular its `setPassword` — runs at the LOCAL_QUORUM default, and on the
`createDefaultOrg` path only `setGlobalSetting('defaultorg', …)` and the
default-admin `createUser` run at QUORUM while `createOrg` and
`setOrgSetting` run at their LOCAL_QUORUM defaults. -/
theorem quorum_paths_consistency (org username : String)
    (userEx resetValid : Bool) (t : TryOutcome)
    (orgName adminUser adminEmail : String) (db : OrgDbView) :
    (completePasswordReset org username userEx resetValid t).1.all
      (fun e => authEffectConsistency e == ConsistencyLevel.LOCAL_QUORUM) =
        true ∧
    (createDefaultOrg orgName adminUser adminEmail db).all
      (fun e => authEffectConsistency e ==
        match e with
        | AuthEffect.setGlobalSetting _ _ _ => ConsistencyLevel.QUORUM
        | AuthEffect.createUser _ _ _ _ _ => ConsistencyLevel.QUORUM
        | _ => ConsistencyLevel.LOCAL_QUORUM) = true := by
  constructor
  · cases userEx <;> cases resetValid <;> cases t <;> rfl
  · unfold createDefaultOrg
    cases hd : db.defaultorgSetting with
    | none =>
      cases ho : db.orgExists orgName <;>
        cases ha : db.orgAdmins orgName <;>
          cases hu : db.userExists orgName adminUser <;>
            simp [hd, ho, ha, hu, List.all_append, authEffectConsistency]
    | some v =>
      cases ho : db.orgExists v <;>
        cases ha : db.orgAdmins v <;>
          cases hu : db.userExists v adminUser <;>
            simp [hd, ho, ha, hu, List.all_append, authEffectConsistency]

/-- C8: `validatePasswordReset` returns true iff the select for
`(org, username)` returned a row whose `requestdate` plus seven days is
strictly later than now and whose resetid's string form equals the given
string; in every other case — in particular when no row exists — it returns
false. -/
theorem validatePasswordReset_spec (rows : List ResetRecord) (resetid : String)
    (now : Int) :
    (validatePasswordReset rows resetid now = true ↔
      ∃ r, rows.head? = some r ∧ r.requestdate + sevenDaysMs > now ∧
        toString r.resetid = resetid) ∧
    validatePasswordReset [] resetid now = false := by
  refine ⟨?_, rfl⟩
  cases rows with
  | nil => simp [validatePasswordReset]
  | cons r rest => simp [validatePasswordReset]

/-- C9: the `Users.post` registration gate compares the text value of the
`registrationOpen` org setting with the integer `0`, which in Python is false
for every string; so for a non-existent user the closed-registration 400 is
returned iff the setting is absent, and any present stored value — including
`"0"` and `""`, which the claim says must refuse — passes the gate and
proceeds to the parent-user checks. -/
theorem usersPost_registrationOpen_divergence :
    usersPostGate false [PyVal.str "0"] = UsersPostStep.parentUserChecks ∧
    usersPostGate false [PyVal.str ""] = UsersPostStep.parentUserChecks ∧
    usersPostGate false [] = UsersPostStep.closedRegistration400 ∧
    (∀ s : String, registrationClosedCheck [PyVal.str s] = false) :=
  ⟨rfl, rfl, rfl, fun _ => rfl⟩

/-- C10: once the user exists and the resetid validates,
`CompletePasswordReset` deletes the password-reset row for `(org, username)`
in its `finally` block on every path — both the 200 success and every 500
failure of salt generation, hashing, or the password write — and the response
is 200 exactly when the whole try block succeeded. -/
theorem completePasswordReset_always_deletes (org username : String)
    (t : TryOutcome) :
    AuthEffect.deletePasswordReset org username ConsistencyLevel.LOCAL_QUORUM ∈
      (completePasswordReset org username true true t).1 ∧
    ((completePasswordReset org username true true t).2 = 200 ∨
     (completePasswordReset org username true true t).2 = 500) ∧
    ((completePasswordReset org username true true t).2 = 200 ↔
      ∃ salt hash, t = TryOutcome.ok salt hash) := by
  cases t <;> simp [completePasswordReset]
